import Mathlib

/-!
Rideau Canal dashboard backend (`index.js`)

A shallow embedding of the three read endpoints of the dashboard backend
(`/api/latest`, `/api/history/:sensorId`, `/api/status`) together with the
helper `getLatestForLocation`, and the properties of the query, mapping and
status-derivation layer.

Modelling decisions.

* JavaScript values are the type `JsVal`; an object is its list of properties
  in insertion order, and reading a property that is not there yields
  `undefined`, as in JavaScript.
* The document store (`container.items.query(spec, opts).fetchAll()`) is an
  external collaborator.  It is a parameter `Store`: a function from the query
  specification to either the thrown value (a rejected promise) or the list of
  returned documents (`resources`).  The options argument is the constant
  `{ enableCrossPartitionQuery: true }` at both call sites and is not modelled.
* An `async` function is a computation `Run α` that records every store query
  it issues, in order, and ends either with a value or with the thrown value;
  `await` is monadic bind, so a rejection stops the rest of the computation.
* A handler produces an `Outcome`: the store queries issued, what was written
  with `console.error`, and the HTTP response (status and the value handed to
  `res.json`).
* `Date.now()` and `Date.prototype.toISOString` belong to the runtime and are
  taken as the parameter `Runtime`.
-/

namespace RideauCanal

/-! ## JavaScript values -/

/-- JavaScript values that occur in stored documents and in response bodies. -/
inductive JsVal where
  | undefined : JsVal
  | null : JsVal
  | bool (b : Bool) : JsVal
  | num (x : ℚ) : JsVal
  | str (s : String) : JsVal
  | arr (items : List JsVal) : JsVal
  | obj (props : List (String × JsVal)) : JsVal

/-- A JavaScript object: its properties in insertion order. -/
abbrev JsObj := List (String × JsVal)

/-- Property read `o.k`: the value of the property, `undefined` when absent. -/
def JsObj.get (o : JsObj) (k : String) : JsVal :=
  match o.lookup k with
  | some v => v
  | none => JsVal.undefined

/-- Strict equality `v === 'literal'` against a string literal: true exactly
when `v` is a string with the same characters. -/
def strictEqStr (v : JsVal) (s : String) : Bool :=
  match v with
  | JsVal.str t => t == s
  | _ => false

/-! ## Location registry -/

/-- A registry entry `{ id, name }`. -/
structure Loc where
  id : String
  name : String

/-- The constant `LOCATIONS` (index.js lines 31-35). -/
def LOCATIONS : List Loc :=
  [ { id := "dows", name := "Dow's Lake" },
    { id := "fifth", name := "Fifth Avenue" },
    { id := "nac", name := "NAC" } ]

/-! ## Store and computations -/

/-- A query specification `{ query, parameters }`. -/
structure QuerySpec where
  query : String
  parameters : List (String × JsVal)

/-- The document store: a query either rejects with a thrown value or resolves
with the returned documents. -/
abbrev Store := QuerySpec → Except JsVal (List JsObj)

/-- An asynchronous computation: the store queries issued so far and the
result, a value or the thrown value. -/
structure Run (α : Type) where
  queries : List QuerySpec
  result : Except JsVal α

/-- A computation that returns without touching the store. -/
def Run.pure {α : Type} (a : α) : Run α :=
  { queries := [], result := Except.ok a }

/-- Sequencing (`await`): when the first part throws, the rest does not run. -/
def Run.bind {α β : Type} (x : Run α) (f : α → Run β) : Run β :=
  match x.result with
  | Except.error e => { queries := x.queries, result := Except.error e }
  | Except.ok a =>
    { queries := x.queries ++ (f a).queries, result := (f a).result }

instance : Monad Run where
  pure := Run.pure
  bind := Run.bind

/-- One round trip `container.items.query(querySpec, ...).fetchAll()`. -/
def fetchAll (store : Store) (querySpec : QuerySpec) : Run (List JsObj) :=
  { queries := [querySpec], result := store querySpec }

/-- An HTTP response: the status code and the value given to `res.json`. -/
structure Response where
  status : Nat
  body : JsVal

/-- What a handler does: store queries issued, `console.error` output (label
and logged value), and the response sent. -/
structure Outcome where
  queries : List QuerySpec
  logged : List (String × JsVal)
  response : Response

/-- The runtime clock: `Date.now()` in milliseconds and the rendering
`new Date(ms).toISOString()`. -/
structure Runtime where
  now : Int
  toISOString : Int → String

/-! ## `getLatestForLocation` (index.js lines 41-81) -/

/-- The query specification built at lines 42-57. -/
def latestQuerySpec (loc : Loc) : QuerySpec :=
  { query := "
      SELECT TOP 1
        c.location,
        c.windowEndTime,
        c.avgIceThicknessCm,
        c.avgSurfaceTemperatureC,
        c.maxSnowAccumulationCm,
        c.avgExternalTemperatureC,
        c.safetyStatus
      FROM c
      WHERE c.location = @loc
      ORDER BY c.windowEndTime DESC
    ",
    parameters := [("@loc", JsVal.str loc.name)] }

/-- The object literal of lines 70-79: the document `row` with its fields
renamed to what the dashboard expects, tagged with the registry id. -/
def latestRecord (loc : Loc) (row : JsObj) : JsObj :=
  [ ("sensorId", JsVal.str loc.id),
    ("location", row.get "location"),
    ("timestamp", row.get "windowEndTime"),
    ("avgIceThickness", row.get "avgIceThicknessCm"),
    ("avgSurfaceTemperature", row.get "avgSurfaceTemperatureC"),
    ("maxSnowAccumulation", row.get "maxSnowAccumulationCm"),
    ("avgExternalTemperature", row.get "avgExternalTemperatureC"),
    ("safetyStatus", row.get "safetyStatus") ]

/-- Latest aggregate for a location: `null` (here `none`) when the query
returns no document, otherwise the first document `resources[0]` mapped. -/
def getLatestForLocation (store : Store) (loc : Loc) : Run (Option JsObj) := do
  let querySpec := latestQuerySpec loc
  let resources ← fetchAll store querySpec
  match resources with
  | [] => return none
  | row :: _ => return some (latestRecord loc row)

/-! ## `GET /api/latest` (index.js lines 85-103) -/

/-- The handler of `/api/latest`. -/
def apiLatest (store : Store) : Outcome :=
  let attempt : Run JsVal := do
    let mut results : List JsObj := []
    for loc in LOCATIONS do
      let latest ← getLatestForLocation store loc
      if let some r := latest then
        results := results ++ [r]
    return JsVal.obj
      [ ("success", JsVal.bool true),
        ("data", JsVal.arr (results.map JsVal.obj)) ]
  match attempt.result with
  | Except.ok body =>
    { queries := attempt.queries, logged := [],
      response := { status := 200, body := body } }
  | Except.error err =>
    { queries := attempt.queries,
      logged := [("Error in /api/latest:", err)],
      response :=
        { status := 500,
          body := JsVal.obj [("error", JsVal.str "Latest query failed")] } }

/-! ## `GET /api/history/:sensorId` (index.js lines 106-158) -/

/-- The query specification built at lines 117-135. -/
def historyQuerySpec (loc : Loc) (oneHourAgoIso : String) : QuerySpec :=
  { query := "
        SELECT
          c.location,
          c.windowEndTime,
          c.avgIceThicknessCm,
          c.avgSurfaceTemperatureC,
          c.maxSnowAccumulationCm,
          c.avgExternalTemperatureC,
          c.safetyStatus
        FROM c
        WHERE c.location = @loc AND c.windowEndTime >= @since
        ORDER BY c.windowEndTime ASC
      ",
    parameters :=
      [ ("@loc", JsVal.str loc.name),
        ("@since", JsVal.str oneHourAgoIso) ] }

/-- The object literal of lines 141-150 applied to one returned document. -/
def historyRecord (sensorId : String) (row : JsObj) : JsObj :=
  [ ("sensorId", JsVal.str sensorId),
    ("location", row.get "location"),
    ("windowEndTime", row.get "windowEndTime"),
    ("avgIceThickness", row.get "avgIceThicknessCm"),
    ("avgSurfaceTemperature", row.get "avgSurfaceTemperatureC"),
    ("maxSnowAccumulation", row.get "maxSnowAccumulationCm"),
    ("avgExternalTemperature", row.get "avgExternalTemperatureC"),
    ("safetyStatus", row.get "safetyStatus") ]

/-- The handler of `/api/history/:sensorId`. -/
def apiHistory (rt : Runtime) (store : Store) (sensorId : String) : Outcome :=
  match LOCATIONS.find? (fun l => l.id == sensorId) with
  | none =>
    { queries := [], logged := [],
      response :=
        { status := 400,
          body := JsVal.obj [("error", JsVal.str "Unknown sensor id")] } }
  | some loc =>
    let oneHourAgoIso := rt.toISOString (rt.now - 60 * 60 * 1000)
    let attempt : Run JsVal := do
      let querySpec := historyQuerySpec loc oneHourAgoIso
      let resources ← fetchAll store querySpec
      let mapped : List JsObj := resources.map (fun row => historyRecord sensorId row)
      return JsVal.arr (mapped.map JsVal.obj)
    match attempt.result with
    | Except.ok body =>
      { queries := attempt.queries, logged := [],
        response := { status := 200, body := body } }
    | Except.error err =>
      { queries := attempt.queries,
        logged := [("Error in /api/history:", err)],
        response :=
          { status := 500,
            body := JsVal.obj [("error", JsVal.str "History query failed")] } }

/-! ## `GET /api/status` (index.js lines 161-181) -/

/-- The overall-status derivation of lines 169-174 over the collected latest
records. -/
def overallStatus (results : List JsObj) : String :=
  if results.length ≠ 0 then
    if results.any (fun r => strictEqStr (r.get "safetyStatus") "Unsafe") then
      "Unsafe"
    else if results.any (fun r => strictEqStr (r.get "safetyStatus") "Caution") then
      "Caution"
    else
      "Safe"
  else
    "Unknown"

/-- The handler of `/api/status`. -/
def apiStatus (store : Store) : Outcome :=
  let attempt : Run JsVal := do
    let mut results : List JsObj := []
    for loc in LOCATIONS do
      let latest ← getLatestForLocation store loc
      if let some r := latest then
        results := results ++ [r]
    let overall := overallStatus results
    return JsVal.obj
      [ ("success", JsVal.bool true),
        ("overallStatus", JsVal.str overall) ]
  match attempt.result with
  | Except.ok body =>
    { queries := attempt.queries, logged := [],
      response := { status := 200, body := body } }
  | Except.error e =>
    { queries := attempt.queries,
      logged := [("Error in /api/status:", e)],
      response :=
        { status := 500,
          body := JsVal.obj
            [ ("success", JsVal.bool false),
              ("error", JsVal.str "Status failed") ] } }

/-! ## Definitions used to state the properties -/

/-- A record whose only property is the given safety status. -/
def recordWithStatus (s : String) : JsObj := [("safetyStatus", JsVal.str s)]

/-- The safety status read from a record. -/
def statusOf (r : JsObj) : JsVal := r.get "safetyStatus"

/-- Some record of the sequence carries exactly the status `s`. -/
def hasStatus (results : List JsObj) (s : String) : Prop :=
  ∃ r, r ∈ results ∧ statusOf r = JsVal.str s

/-- The registry entry for Dow's Lake. -/
def locDows : Loc := { id := "dows", name := "Dow's Lake" }

/-- The registry entry for Fifth Avenue. -/
def locFifth : Loc := { id := "fifth", name := "Fifth Avenue" }

/-- The registry entry for the NAC. -/
def locNac : Loc := { id := "nac", name := "NAC" }

/-- The record contributed by a location whose latest query returned `rows`:
the mapped first document, or nothing when there is none. -/
def latestOf (loc : Loc) (rows : List JsObj) : List JsObj :=
  match rows with
  | [] => []
  | row :: _ => [latestRecord loc row]

/-- The success body of `/api/latest` around the records `data`. -/
def latestBody (data : List JsObj) : JsVal :=
  JsVal.obj [("success", JsVal.bool true), ("data", JsVal.arr (data.map JsVal.obj))]

/-- The success body of `/api/status` around the label `overall`. -/
def statusBody (overall : String) : JsVal :=
  JsVal.obj [("success", JsVal.bool true), ("overallStatus", JsVal.str overall)]

/-- The fixed failure response of `/api/latest`. -/
def latestFailure : Response :=
  { status := 500, body := JsVal.obj [("error", JsVal.str "Latest query failed")] }

/-- The fixed failure response of `/api/history/:sensorId`. -/
def historyFailure : Response :=
  { status := 500, body := JsVal.obj [("error", JsVal.str "History query failed")] }

/-- The fixed failure response of `/api/status`. -/
def statusFailure : Response :=
  { status := 500,
    body := JsVal.obj [("success", JsVal.bool false), ("error", JsVal.str "Status failed")] }

/-- The response to an unregistered sensor id. -/
def unknownSensor : Response :=
  { status := 400, body := JsVal.obj [("error", JsVal.str "Unknown sensor id")] }

/-- The first document the store returns to the latest query of `loc`, if the
query resolves with at least one. -/
def latestDocument (store : Store) (loc : Loc) : Option JsObj :=
  match store (latestQuerySpec loc) with
  | Except.ok (row :: _) => some row
  | _ => none

/-- Status Derivation as section 4.4 of the specification words it, over the
sequence of per-location statuses: Unsafe if any status is Unsafe, else
Caution if any is Caution, else Safe if the sequence is non-empty, else
Unknown. -/
def specStatusDerivation (statuses : List JsVal) : String :=
  if statuses.any (fun s => strictEqStr s "Unsafe") then "Unsafe"
  else if statuses.any (fun s => strictEqStr s "Caution") then "Caution"
  else if !statuses.isEmpty then "Safe"
  else "Unknown"

/-- A store in which the partition of Dow's Lake is unavailable and every
other query returns one document. -/
def dowsDownStore : Store := fun q =>
  match q.parameters.lookup "@loc" with
  | some (JsVal.str name) =>
    if name == "Dow's Lake" then Except.error (JsVal.str "ServiceUnavailable")
    else Except.ok [[("location", JsVal.str name), ("safetyStatus", JsVal.str "Safe")]]
  | _ => Except.ok []

/-- A store in which the partition of Fifth Avenue is unavailable (the error
value is a parameter) and every other query returns one document. -/
def fifthDownStore (err : JsVal) : Store := fun q =>
  match q.parameters.lookup "@loc" with
  | some (JsVal.str name) =>
    if name == "Fifth Avenue" then Except.error err
    else Except.ok [[("location", JsVal.str name), ("safetyStatus", JsVal.str "Safe")]]
  | _ => Except.ok []

/-- A store with two documents for Dow's Lake, none for Fifth Avenue and one
for the NAC. -/
def sampleStore : Store := fun q =>
  match q.parameters.lookup "@loc" with
  | some (JsVal.str name) =>
    if name == "Dow's Lake" then
      Except.ok
        [ [ ("location", JsVal.str "Dow's Lake"),
            ("windowEndTime", JsVal.str "2024-01-15T10:00:00Z"),
            ("safetyStatus", JsVal.str "Caution") ],
          [ ("location", JsVal.str "Dow's Lake"),
            ("windowEndTime", JsVal.str "2024-01-15T09:55:00Z"),
            ("safetyStatus", JsVal.str "Safe") ] ]
    else if name == "NAC" then
      Except.ok
        [ [ ("location", JsVal.str "NAC"),
            ("windowEndTime", JsVal.str "2024-01-15T10:00:00Z"),
            ("safetyStatus", JsVal.str "Safe") ] ]
    else Except.ok []
  | _ => Except.ok []

/-- A clock reading 2024-01-15T10:00:00Z. -/
def sampleRuntime : Runtime :=
  { now := 1705312800000,
    toISOString := fun ms =>
      if ms = 1705309200000 then "2024-01-15T09:00:00.000Z" else "1970-01-01T00:00:00.000Z" }

/-- Records with a missing, lower-case, upper-case, numeric and unlisted
status. -/
def oddRecords : List JsObj :=
  [ [("location", JsVal.str "NAC")],
    recordWithStatus "unsafe",
    recordWithStatus "CAUTION",
    [("safetyStatus", JsVal.num 3)],
    recordWithStatus "Closed" ]

/-- The stored document of the round-trip example; the three fields the example
does not mention are absent. -/
def fifthDocument : JsObj :=
  [ ("location", JsVal.str "Fifth Avenue"),
    ("windowEndTime", JsVal.str "2024-01-15T10:00:00Z"),
    ("avgIceThicknessCm", JsVal.num 22.5),
    ("safetyStatus", JsVal.str "Safe") ]

/-- A store that answers every query with the single document `fifthDocument`. -/
def fifthStore : Store := fun _ => Except.ok [fifthDocument]

/-- Two documents for the NAC in ascending order of window end time. -/
def nacDocuments : List JsObj :=
  [ [ ("location", JsVal.str "NAC"),
      ("windowEndTime", JsVal.str "2024-01-15T09:30:00Z"),
      ("avgIceThicknessCm", JsVal.num 31),
      ("safetyStatus", JsVal.str "Safe") ],
    [ ("location", JsVal.str "NAC"),
      ("windowEndTime", JsVal.str "2024-01-15T09:35:00Z"),
      ("avgIceThicknessCm", JsVal.num 30.5),
      ("safetyStatus", JsVal.str "Safe") ] ]

/-! ## Basic facts -/

theorem LOCATIONS_eq : LOCATIONS = [locDows, locFifth, locNac] := rfl

@[simp] theorem run_pure {α : Type} (a : α) :
    (pure a : Run α) = { queries := [], result := Except.ok a } := rfl

@[simp] theorem run_bind_error {α β : Type} (qs : List QuerySpec) (e : JsVal)
    (f : α → Run β) :
    ((({ queries := qs, result := Except.error e } : Run α)) >>= f) =
      { queries := qs, result := Except.error e } := rfl

@[simp] theorem run_bind_ok {α β : Type} (qs : List QuerySpec) (a : α)
    (f : α → Run β) :
    ((({ queries := qs, result := Except.ok a } : Run α)) >>= f) =
      { queries := qs ++ (f a).queries, result := (f a).result } := rfl

theorem getLatest_error (store : Store) (loc : Loc) (e : JsVal)
    (h : store (latestQuerySpec loc) = Except.error e) :
    getLatestForLocation store loc =
      { queries := [latestQuerySpec loc], result := Except.error e } := by
  simp [getLatestForLocation, fetchAll, h]

theorem getLatest_ok (store : Store) (loc : Loc) (rows : List JsObj)
    (h : store (latestQuerySpec loc) = Except.ok rows) :
    getLatestForLocation store loc =
      { queries := [latestQuerySpec loc],
        result := Except.ok ((rows.head?).map (latestRecord loc)) } := by
  cases rows <;> simp [getLatestForLocation, fetchAll, h]

theorem apiLatest_ok (store : Store) (r1 r2 r3 : List JsObj)
    (h1 : store (latestQuerySpec locDows) = Except.ok r1)
    (h2 : store (latestQuerySpec locFifth) = Except.ok r2)
    (h3 : store (latestQuerySpec locNac) = Except.ok r3) :
    apiLatest store =
      { queries := [latestQuerySpec locDows, latestQuerySpec locFifth, latestQuerySpec locNac],
        logged := [],
        response :=
          { status := 200,
            body := latestBody
              (latestOf locDows r1 ++ latestOf locFifth r2 ++ latestOf locNac r3) } } := by
  have g1 := getLatest_ok store locDows r1 h1
  have g2 := getLatest_ok store locFifth r2 h2
  have g3 := getLatest_ok store locNac r3 h3
  cases r1 <;> cases r2 <;> cases r3 <;>
    simp [apiLatest, LOCATIONS_eq, latestOf, latestBody, g1, g2, g3]

theorem apiLatest_fail_dows (store : Store) (e : JsVal)
    (h1 : store (latestQuerySpec locDows) = Except.error e) :
    apiLatest store =
      { queries := [latestQuerySpec locDows],
        logged := [("Error in /api/latest:", e)],
        response := latestFailure } := by
  simp [apiLatest, LOCATIONS_eq, latestFailure, getLatest_error store locDows e h1]

theorem apiLatest_fail_fifth (store : Store) (r1 : List JsObj) (e : JsVal)
    (h1 : store (latestQuerySpec locDows) = Except.ok r1)
    (h2 : store (latestQuerySpec locFifth) = Except.error e) :
    apiLatest store =
      { queries := [latestQuerySpec locDows, latestQuerySpec locFifth],
        logged := [("Error in /api/latest:", e)],
        response := latestFailure } := by
  have g1 := getLatest_ok store locDows r1 h1
  have g2 := getLatest_error store locFifth e h2
  cases r1 <;> simp [apiLatest, LOCATIONS_eq, latestFailure, g1, g2]

theorem apiLatest_fail_nac (store : Store) (r1 r2 : List JsObj) (e : JsVal)
    (h1 : store (latestQuerySpec locDows) = Except.ok r1)
    (h2 : store (latestQuerySpec locFifth) = Except.ok r2)
    (h3 : store (latestQuerySpec locNac) = Except.error e) :
    apiLatest store =
      { queries := [latestQuerySpec locDows, latestQuerySpec locFifth, latestQuerySpec locNac],
        logged := [("Error in /api/latest:", e)],
        response := latestFailure } := by
  have g1 := getLatest_ok store locDows r1 h1
  have g2 := getLatest_ok store locFifth r2 h2
  have g3 := getLatest_error store locNac e h3
  cases r1 <;> cases r2 <;> simp [apiLatest, LOCATIONS_eq, latestFailure, g1, g2, g3]

theorem apiStatus_ok (store : Store) (r1 r2 r3 : List JsObj)
    (h1 : store (latestQuerySpec locDows) = Except.ok r1)
    (h2 : store (latestQuerySpec locFifth) = Except.ok r2)
    (h3 : store (latestQuerySpec locNac) = Except.ok r3) :
    apiStatus store =
      { queries := [latestQuerySpec locDows, latestQuerySpec locFifth, latestQuerySpec locNac],
        logged := [],
        response :=
          { status := 200,
            body := statusBody (overallStatus
              (latestOf locDows r1 ++ latestOf locFifth r2 ++ latestOf locNac r3)) } } := by
  have g1 := getLatest_ok store locDows r1 h1
  have g2 := getLatest_ok store locFifth r2 h2
  have g3 := getLatest_ok store locNac r3 h3
  cases r1 <;> cases r2 <;> cases r3 <;>
    simp [apiStatus, LOCATIONS_eq, latestOf, statusBody, g1, g2, g3]

theorem apiStatus_fail_dows (store : Store) (e : JsVal)
    (h1 : store (latestQuerySpec locDows) = Except.error e) :
    apiStatus store =
      { queries := [latestQuerySpec locDows],
        logged := [("Error in /api/status:", e)],
        response := statusFailure } := by
  simp [apiStatus, LOCATIONS_eq, statusFailure, getLatest_error store locDows e h1]

theorem apiStatus_fail_fifth (store : Store) (r1 : List JsObj) (e : JsVal)
    (h1 : store (latestQuerySpec locDows) = Except.ok r1)
    (h2 : store (latestQuerySpec locFifth) = Except.error e) :
    apiStatus store =
      { queries := [latestQuerySpec locDows, latestQuerySpec locFifth],
        logged := [("Error in /api/status:", e)],
        response := statusFailure } := by
  have g1 := getLatest_ok store locDows r1 h1
  have g2 := getLatest_error store locFifth e h2
  cases r1 <;> simp [apiStatus, LOCATIONS_eq, statusFailure, g1, g2]

theorem apiStatus_fail_nac (store : Store) (r1 r2 : List JsObj) (e : JsVal)
    (h1 : store (latestQuerySpec locDows) = Except.ok r1)
    (h2 : store (latestQuerySpec locFifth) = Except.ok r2)
    (h3 : store (latestQuerySpec locNac) = Except.error e) :
    apiStatus store =
      { queries := [latestQuerySpec locDows, latestQuerySpec locFifth, latestQuerySpec locNac],
        logged := [("Error in /api/status:", e)],
        response := statusFailure } := by
  have g1 := getLatest_ok store locDows r1 h1
  have g2 := getLatest_ok store locFifth r2 h2
  have g3 := getLatest_error store locNac e h3
  cases r1 <;> cases r2 <;> simp [apiStatus, LOCATIONS_eq, statusFailure, g1, g2, g3]

/-- The registry lookup `LOCATIONS.find(l => l.id === sensorId)`. -/
theorem find_location (sensorId : String) :
    (sensorId = "dows" ∧ LOCATIONS.find? (fun l => l.id == sensorId) = some locDows) ∨
    (sensorId = "fifth" ∧ LOCATIONS.find? (fun l => l.id == sensorId) = some locFifth) ∨
    (sensorId = "nac" ∧ LOCATIONS.find? (fun l => l.id == sensorId) = some locNac) ∨
    (sensorId ≠ "dows" ∧ sensorId ≠ "fifth" ∧ sensorId ≠ "nac" ∧
      LOCATIONS.find? (fun l => l.id == sensorId) = none) := by
  by_cases h1 : sensorId = "dows"
  · subst h1
    exact Or.inl ⟨rfl, rfl⟩
  · by_cases h2 : sensorId = "fifth"
    · subst h2
      exact Or.inr (Or.inl ⟨rfl, rfl⟩)
    · by_cases h3 : sensorId = "nac"
      · subst h3
        exact Or.inr (Or.inr (Or.inl ⟨rfl, rfl⟩))
      · refine Or.inr (Or.inr (Or.inr ⟨h1, h2, h3, ?_⟩))
        have e1 : ("dows" == sensorId) = false :=
          beq_eq_false_iff_ne.mpr (fun h => h1 h.symm)
        have e2 : ("fifth" == sensorId) = false :=
          beq_eq_false_iff_ne.mpr (fun h => h2 h.symm)
        have e3 : ("nac" == sensorId) = false :=
          beq_eq_false_iff_ne.mpr (fun h => h3 h.symm)
        simp [LOCATIONS, List.find?, e1, e2, e3]

theorem apiHistory_unknown (rt : Runtime) (store : Store) (sensorId : String)
    (h : LOCATIONS.find? (fun l => l.id == sensorId) = none) :
    apiHistory rt store sensorId =
      { queries := [], logged := [], response := unknownSensor } := by
  simp [apiHistory, h, unknownSensor]

theorem apiHistory_ok (rt : Runtime) (store : Store) (sensorId : String) (loc : Loc)
    (docs : List JsObj)
    (h : LOCATIONS.find? (fun l => l.id == sensorId) = some loc)
    (hs : store (historyQuerySpec loc (rt.toISOString (rt.now - 60 * 60 * 1000))) =
      Except.ok docs) :
    apiHistory rt store sensorId =
      { queries := [historyQuerySpec loc (rt.toISOString (rt.now - 60 * 60 * 1000))],
        logged := [],
        response :=
          { status := 200,
            body := JsVal.arr ((docs.map (historyRecord sensorId)).map JsVal.obj) } } := by
  simp only [apiHistory, h, fetchAll, hs, run_bind_ok, run_pure, List.append_nil]

theorem apiHistory_fail (rt : Runtime) (store : Store) (sensorId : String) (loc : Loc)
    (e : JsVal)
    (h : LOCATIONS.find? (fun l => l.id == sensorId) = some loc)
    (hs : store (historyQuerySpec loc (rt.toISOString (rt.now - 60 * 60 * 1000))) =
      Except.error e) :
    apiHistory rt store sensorId =
      { queries := [historyQuerySpec loc (rt.toISOString (rt.now - 60 * 60 * 1000))],
        logged := [("Error in /api/history:", e)],
        response := historyFailure } := by
  simp only [apiHistory, h, fetchAll, hs, run_bind_error, historyFailure]

theorem same_outcome (s1 s2 : Store) (q : QuerySpec)
    (h : (s1 q).toOption = (s2 q).toOption) :
    (∃ rows, s1 q = Except.ok rows ∧ s2 q = Except.ok rows) ∨
    (∃ e1 e2, s1 q = Except.error e1 ∧ s2 q = Except.error e2) := by
  cases h1 : s1 q with
  | error e1 =>
    cases h2 : s2 q with
    | error e2 => exact Or.inr ⟨e1, e2, rfl, rfl⟩
    | ok r2 => simp [h1, h2, Except.toOption] at h
  | ok r1 =>
    cases h2 : s2 q with
    | error e2 => simp [h1, h2, Except.toOption] at h
    | ok r2 =>
      simp only [h1, h2, Except.toOption, Option.some.injEq] at h
      subst h
      exact Or.inl ⟨r1, rfl, rfl⟩

theorem apiLatest_response_congr (s1 s2 : Store)
    (hsame : ∀ q, (s1 q).toOption = (s2 q).toOption) :
    (apiLatest s1).response = (apiLatest s2).response := by
  rcases same_outcome s1 s2 _ (hsame (latestQuerySpec locDows)) with
    ⟨r1, a1, b1⟩ | ⟨e, e', a1, b1⟩
  · rcases same_outcome s1 s2 _ (hsame (latestQuerySpec locFifth)) with
      ⟨r2, a2, b2⟩ | ⟨e, e', a2, b2⟩
    · rcases same_outcome s1 s2 _ (hsame (latestQuerySpec locNac)) with
        ⟨r3, a3, b3⟩ | ⟨e, e', a3, b3⟩
      · rw [apiLatest_ok s1 r1 r2 r3 a1 a2 a3, apiLatest_ok s2 r1 r2 r3 b1 b2 b3]
      · rw [apiLatest_fail_nac s1 r1 r2 e a1 a2 a3, apiLatest_fail_nac s2 r1 r2 e' b1 b2 b3]
    · rw [apiLatest_fail_fifth s1 r1 e a1 a2, apiLatest_fail_fifth s2 r1 e' b1 b2]
  · rw [apiLatest_fail_dows s1 e a1, apiLatest_fail_dows s2 e' b1]

theorem apiStatus_response_congr (s1 s2 : Store)
    (hsame : ∀ q, (s1 q).toOption = (s2 q).toOption) :
    (apiStatus s1).response = (apiStatus s2).response := by
  rcases same_outcome s1 s2 _ (hsame (latestQuerySpec locDows)) with
    ⟨r1, a1, b1⟩ | ⟨e, e', a1, b1⟩
  · rcases same_outcome s1 s2 _ (hsame (latestQuerySpec locFifth)) with
      ⟨r2, a2, b2⟩ | ⟨e, e', a2, b2⟩
    · rcases same_outcome s1 s2 _ (hsame (latestQuerySpec locNac)) with
        ⟨r3, a3, b3⟩ | ⟨e, e', a3, b3⟩
      · rw [apiStatus_ok s1 r1 r2 r3 a1 a2 a3, apiStatus_ok s2 r1 r2 r3 b1 b2 b3]
      · rw [apiStatus_fail_nac s1 r1 r2 e a1 a2 a3, apiStatus_fail_nac s2 r1 r2 e' b1 b2 b3]
    · rw [apiStatus_fail_fifth s1 r1 e a1 a2, apiStatus_fail_fifth s2 r1 e' b1 b2]
  · rw [apiStatus_fail_dows s1 e a1, apiStatus_fail_dows s2 e' b1]

theorem apiHistory_response_congr (rt : Runtime) (s1 s2 : Store) (sensorId : String)
    (hsame : ∀ q, (s1 q).toOption = (s2 q).toOption) :
    (apiHistory rt s1 sensorId).response = (apiHistory rt s2 sensorId).response := by
  cases hfind : LOCATIONS.find? (fun l => l.id == sensorId) with
  | none => rw [apiHistory_unknown rt s1 sensorId hfind, apiHistory_unknown rt s2 sensorId hfind]
  | some loc =>
    rcases same_outcome s1 s2 _
      (hsame (historyQuerySpec loc (rt.toISOString (rt.now - 60 * 60 * 1000)))) with
      ⟨docs, a, b⟩ | ⟨e, e', a, b⟩
    · rw [apiHistory_ok rt s1 sensorId loc docs hfind a,
        apiHistory_ok rt s2 sensorId loc docs hfind b]
    · rw [apiHistory_fail rt s1 sensorId loc e hfind a,
        apiHistory_fail rt s2 sensorId loc e' hfind b]

theorem latest_failure_cases (store : Store)
    (h : ∃ loc, loc ∈ LOCATIONS ∧ ∃ e, store (latestQuerySpec loc) = Except.error e) :
    (∃ e, store (latestQuerySpec locDows) = Except.error e) ∨
    (∃ r1 e, store (latestQuerySpec locDows) = Except.ok r1 ∧
      store (latestQuerySpec locFifth) = Except.error e) ∨
    (∃ r1 r2 e, store (latestQuerySpec locDows) = Except.ok r1 ∧
      store (latestQuerySpec locFifth) = Except.ok r2 ∧
      store (latestQuerySpec locNac) = Except.error e) := by
  cases h1 : store (latestQuerySpec locDows) with
  | error e => exact Or.inl ⟨e, rfl⟩
  | ok r1 =>
    cases h2 : store (latestQuerySpec locFifth) with
    | error e => exact Or.inr (Or.inl ⟨r1, e, rfl, rfl⟩)
    | ok r2 =>
      cases h3 : store (latestQuerySpec locNac) with
      | error e => exact Or.inr (Or.inr ⟨r1, r2, e, rfl, rfl, rfl⟩)
      | ok r3 =>
        obtain ⟨loc, hloc, e, he⟩ := h
        simp only [LOCATIONS_eq, List.mem_cons, List.mem_singleton, List.not_mem_nil,
          or_false] at hloc
        rcases hloc with rfl | rfl | rfl
        · rw [h1] at he
          cases he
        · rw [h2] at he
          cases he
        · rw [h3] at he
          cases he

theorem apiLatest_response_of_failure (store : Store)
    (h : ∃ loc, loc ∈ LOCATIONS ∧ ∃ e, store (latestQuerySpec loc) = Except.error e) :
    (apiLatest store).response = latestFailure := by
  rcases latest_failure_cases store h with ⟨e, h1⟩ | ⟨r1, e, h1, h2⟩ | ⟨r1, r2, e, h1, h2, h3⟩
  · rw [apiLatest_fail_dows store e h1]
  · rw [apiLatest_fail_fifth store r1 e h1 h2]
  · rw [apiLatest_fail_nac store r1 r2 e h1 h2 h3]

theorem apiStatus_response_of_failure (store : Store)
    (h : ∃ loc, loc ∈ LOCATIONS ∧ ∃ e, store (latestQuerySpec loc) = Except.error e) :
    (apiStatus store).response = statusFailure := by
  rcases latest_failure_cases store h with ⟨e, h1⟩ | ⟨r1, e, h1, h2⟩ | ⟨r1, r2, e, h1, h2, h3⟩
  · rw [apiStatus_fail_dows store e h1]
  · rw [apiStatus_fail_fifth store r1 e h1 h2]
  · rw [apiStatus_fail_nac store r1 r2 e h1 h2 h3]

theorem find_of_mem (sensorId : String) (loc : Loc) (hloc : loc ∈ LOCATIONS)
    (hid : loc.id = sensorId) :
    LOCATIONS.find? (fun l => l.id == sensorId) = some loc := by
  simp only [LOCATIONS, List.mem_cons, List.mem_singleton, List.not_mem_nil, or_false] at hloc
  rcases hloc with rfl | rfl | rfl <;> subst hid <;> rfl

theorem strictEqStr_iff (v : JsVal) (s : String) :
    strictEqStr v s = true ↔ v = JsVal.str s := by
  cases v <;> simp [strictEqStr]

theorem any_status_iff (results : List JsObj) (s : String) :
    results.any (fun r => strictEqStr (r.get "safetyStatus") s) = true ↔
      hasStatus results s := by
  simp [List.any_eq_true, strictEqStr_iff, hasStatus, statusOf]

theorem hasStatus_nil (s : String) : ¬ hasStatus [] s := by
  simp [hasStatus]

theorem overallStatus_nil : overallStatus [] = "Unknown" := by
  simp [overallStatus]

theorem overallStatus_unsafe_case (results : List JsObj) (h : hasStatus results "Unsafe") :
    overallStatus results = "Unsafe" := by
  have hne : results ≠ [] := by
    rintro rfl
    exact hasStatus_nil _ h
  have hany := (any_status_iff results "Unsafe").mpr h
  simp [overallStatus, hne, hany]

theorem overallStatus_caution_case (results : List JsObj) (hu : ¬ hasStatus results "Unsafe")
    (h : hasStatus results "Caution") : overallStatus results = "Caution" := by
  have hne : results ≠ [] := by
    rintro rfl
    exact hasStatus_nil _ h
  have hany := (any_status_iff results "Caution").mpr h
  have hnu : results.any (fun r => strictEqStr (r.get "safetyStatus") "Unsafe") = false := by
    rw [Bool.eq_false_iff, Ne, any_status_iff]
    exact hu
  simp only [overallStatus, List.length_eq_zero, ne_eq, hne, not_false_eq_true, if_true, hnu,
    hany, Bool.false_eq_true, if_false]

theorem overallStatus_safe_case (results : List JsObj) (hne : results ≠ [])
    (hu : ¬ hasStatus results "Unsafe") (hc : ¬ hasStatus results "Caution") :
    overallStatus results = "Safe" := by
  have hnu : results.any (fun r => strictEqStr (r.get "safetyStatus") "Unsafe") = false := by
    rw [Bool.eq_false_iff, Ne, any_status_iff]
    exact hu
  have hnc : results.any (fun r => strictEqStr (r.get "safetyStatus") "Caution") = false := by
    rw [Bool.eq_false_iff, Ne, any_status_iff]
    exact hc
  simp only [overallStatus, List.length_eq_zero, ne_eq, hne, not_false_eq_true, if_true, hnu,
    hnc, Bool.false_eq_true, if_false]

/-- The four outcomes of the derivation, each with the exact condition under
which it is produced. -/
theorem overallStatus_cases (results : List JsObj) :
    (overallStatus results = "Unsafe" ↔ hasStatus results "Unsafe") ∧
    (overallStatus results = "Caution" ↔
      ¬ hasStatus results "Unsafe" ∧ hasStatus results "Caution") ∧
    (overallStatus results = "Safe" ↔
      ¬ hasStatus results "Unsafe" ∧ ¬ hasStatus results "Caution" ∧ results ≠ []) ∧
    (overallStatus results = "Unknown" ↔ results = []) := by
  by_cases hne : results = []
  · subst hne
    simp [overallStatus_nil, hasStatus_nil]
  · by_cases hu : hasStatus results "Unsafe"
    · simp [overallStatus_unsafe_case results hu, hu, hne]
    · by_cases hc : hasStatus results "Caution"
      · simp [overallStatus_caution_case results hu hc, hu, hc, hne]
      · simp [overallStatus_safe_case results hne hu hc, hu, hc, hne]

theorem overallStatus_congr (a b : List JsObj) (he : a = [] ↔ b = [])
    (hu : hasStatus a "Unsafe" ↔ hasStatus b "Unsafe")
    (hc : hasStatus a "Caution" ↔ hasStatus b "Caution") :
    overallStatus a = overallStatus b := by
  by_cases hua : hasStatus a "Unsafe"
  · rw [overallStatus_unsafe_case a hua, overallStatus_unsafe_case b (hu.mp hua)]
  · have hub : ¬ hasStatus b "Unsafe" := fun h => hua (hu.mpr h)
    by_cases hca : hasStatus a "Caution"
    · rw [overallStatus_caution_case a hua hca, overallStatus_caution_case b hub (hc.mp hca)]
    · have hcb : ¬ hasStatus b "Caution" := fun h => hca (hc.mpr h)
      by_cases hea : a = []
      · rw [hea, he.mp hea]
      · have heb : b ≠ [] := fun h => hea (he.mpr h)
        rw [overallStatus_safe_case a hea hua hca, overallStatus_safe_case b heb hub hcb]

theorem hasStatus_perm (a b : List JsObj) (h : a.Perm b) (s : String) :
    hasStatus a s ↔ hasStatus b s := by
  unfold hasStatus
  constructor
  · rintro ⟨r, hr, hs⟩
    exact ⟨r, h.mem_iff.mp hr, hs⟩
  · rintro ⟨r, hr, hs⟩
    exact ⟨r, h.mem_iff.mpr hr, hs⟩

/-! ## Status derivation (claims C1, C9, C10) -/

/-- C1: the derivation of lines 169-174 follows the priority policy.  For every
sequence of latest records (in particular every one whose statuses are all
Safe, Caution or Unsafe) the overall status is Unsafe exactly when some record
is Unsafe, Caution exactly when none is Unsafe and some record is Caution, Safe
exactly when none is Unsafe or Caution and the sequence is non-empty, and
Unknown exactly when the sequence is empty; the five rows of the truth table
evaluate as listed. -/
theorem status_derivation_policy (results : List JsObj) :
    ((overallStatus results = "Unsafe" ↔ hasStatus results "Unsafe") ∧
     (overallStatus results = "Caution" ↔
       ¬ hasStatus results "Unsafe" ∧ hasStatus results "Caution") ∧
     (overallStatus results = "Safe" ↔
       ¬ hasStatus results "Unsafe" ∧ ¬ hasStatus results "Caution" ∧ results ≠ []) ∧
     (overallStatus results = "Unknown" ↔ results = [])) ∧
    overallStatus [] = "Unknown" ∧
    overallStatus [recordWithStatus "Safe"] = "Safe" ∧
    overallStatus [recordWithStatus "Safe", recordWithStatus "Caution"] = "Caution" ∧
    overallStatus
      [recordWithStatus "Safe", recordWithStatus "Caution", recordWithStatus "Unsafe"] =
        "Unsafe" ∧
    overallStatus [recordWithStatus "Unsafe"] = "Unsafe" :=
  ⟨overallStatus_cases results, by decide, by decide, by decide, by decide, by decide⟩

/-- C9: the derivation does not depend on the order of its input.  Permuting
the sequence of latest records leaves the overall status unchanged, and more
generally any sequence that is empty exactly when `a` is and carries the
statuses Unsafe and Caution exactly when `a` does gets the same overall
status as `a`. -/
theorem status_derivation_perm (a b : List JsObj) (h : a.Perm b) :
    overallStatus a = overallStatus b ∧
    (∀ c : List JsObj, (c = [] ↔ a = []) →
      (hasStatus c "Unsafe" ↔ hasStatus a "Unsafe") →
      (hasStatus c "Caution" ↔ hasStatus a "Caution") →
      overallStatus c = overallStatus a) := by
  refine ⟨?_, fun c he hu hc => overallStatus_congr c a he hu hc⟩
  apply overallStatus_congr a b
  · constructor
    · rintro rfl
      exact h.nil_eq.symm
    · rintro rfl
      exact h.eq_nil
  · exact hasStatus_perm a b h "Unsafe"
  · exact hasStatus_perm a b h "Caution"

/-- C9 at a concrete input: swapping a Safe and an Unsafe record. -/
theorem status_derivation_perm_witness :
    [recordWithStatus "Safe", recordWithStatus "Unsafe"].Perm
      [recordWithStatus "Unsafe", recordWithStatus "Safe"] ∧
    overallStatus [recordWithStatus "Safe", recordWithStatus "Unsafe"] =
      overallStatus [recordWithStatus "Unsafe", recordWithStatus "Safe"] :=
  ⟨List.Perm.swap _ _ _,
    (status_derivation_perm _ _ (List.Perm.swap _ _ _)).1⟩

/-- C10: the derivation yields Unknown only for the empty sequence.  Every
non-empty sequence of latest records in which no status is exactly the string
Unsafe or Caution gets the overall status Safe, whatever the statuses are
(missing, differently cased, not a string, outside the enumeration); and the
overall status is Unknown if and only if the sequence is empty. -/
theorem status_unknown_only_when_empty (results : List JsObj) (hne : results ≠ [])
    (hno : ∀ r, r ∈ results →
      statusOf r ≠ JsVal.str "Unsafe" ∧ statusOf r ≠ JsVal.str "Caution") :
    overallStatus results = "Safe" ∧
    (∀ rs : List JsObj, overallStatus rs = "Unknown" ↔ rs = []) := by
  refine ⟨?_, fun rs => (overallStatus_cases rs).2.2.2⟩
  apply overallStatus_safe_case results hne
  · rintro ⟨r, hr, hs⟩
    exact (hno r hr).1 hs
  · rintro ⟨r, hr, hs⟩
    exact (hno r hr).2 hs

/-- C10 at a concrete input: five records none of which has a listed status. -/
theorem status_unknown_only_when_empty_witness :
    oddRecords ≠ [] ∧
    (∀ r, r ∈ oddRecords →
      statusOf r ≠ JsVal.str "Unsafe" ∧ statusOf r ≠ JsVal.str "Caution") ∧
    overallStatus oddRecords = "Safe" := by
  have hne : oddRecords ≠ [] := by simp [oddRecords]
  have hno : ∀ r, r ∈ oddRecords →
      statusOf r ≠ JsVal.str "Unsafe" ∧ statusOf r ≠ JsVal.str "Caution" := by
    intro r hr
    simp only [oddRecords, List.mem_cons, List.mem_singleton, List.not_mem_nil, or_false] at hr
    rcases hr with rfl | rfl | rfl | rfl | rfl <;>
      simp [statusOf, JsObj.get, recordWithStatus, List.lookup]
  exact ⟨hne, hno, (status_unknown_only_when_empty oddRecords hne hno).1⟩

/-! ## Record mapping (claims C5, C6) -/

/-- C5: the latest-record mapper in `getLatestForLocation` is a pure field
renaming.  Whenever the latest query for a registry entry `loc` returns the
documents `row :: rest`, the function returns an object with exactly the eight
properties sensorId, location, timestamp, avgIceThickness,
avgSurfaceTemperature, maxSnowAccumulation, avgExternalTemperature and
safetyStatus, where sensorId is `loc.id` and every other property reads the
same value as the renamed property of `row` (an absent one reads `undefined`
on both sides). -/
theorem latest_mapper_passthrough (store : Store) (loc : Loc) (row : JsObj)
    (rest : List JsObj) (h : store (latestQuerySpec loc) = Except.ok (row :: rest)) :
    ∃ o : JsObj, (getLatestForLocation store loc).result = Except.ok (some o) ∧
      o.map Prod.fst =
        ["sensorId", "location", "timestamp", "avgIceThickness", "avgSurfaceTemperature",
          "maxSnowAccumulation", "avgExternalTemperature", "safetyStatus"] ∧
      o.get "sensorId" = JsVal.str loc.id ∧
      o.get "location" = row.get "location" ∧
      o.get "timestamp" = row.get "windowEndTime" ∧
      o.get "avgIceThickness" = row.get "avgIceThicknessCm" ∧
      o.get "avgSurfaceTemperature" = row.get "avgSurfaceTemperatureC" ∧
      o.get "maxSnowAccumulation" = row.get "maxSnowAccumulationCm" ∧
      o.get "avgExternalTemperature" = row.get "avgExternalTemperatureC" ∧
      o.get "safetyStatus" = row.get "safetyStatus" := by
  refine ⟨latestRecord loc row, ?_, rfl, rfl, rfl, rfl, rfl, rfl, rfl, rfl, rfl⟩
  rw [getLatest_ok store loc (row :: rest) h]
  rfl

/-- C5 at the round-trip example: the Fifth Avenue document is served with
sensorId fifth, its location, window end time, ice thickness 22.5 and status
unchanged, and the absent surface temperature stays `undefined`. -/
theorem latest_mapper_passthrough_witness :
    fifthStore (latestQuerySpec locFifth) = Except.ok [fifthDocument] ∧
    ∃ o : JsObj, (getLatestForLocation fifthStore locFifth).result = Except.ok (some o) ∧
      o.get "sensorId" = JsVal.str "fifth" ∧
      o.get "location" = JsVal.str "Fifth Avenue" ∧
      o.get "timestamp" = JsVal.str "2024-01-15T10:00:00Z" ∧
      o.get "avgIceThickness" = JsVal.num 22.5 ∧
      o.get "safetyStatus" = JsVal.str "Safe" ∧
      o.get "avgSurfaceTemperature" = JsVal.undefined := by
  obtain ⟨o, ho, _, hid, hloc, hts, hice, hsurf, _, _, hst⟩ :=
    latest_mapper_passthrough fifthStore locFifth fifthDocument [] rfl
  exact ⟨rfl, o, ho, hid, hloc.trans rfl, hts.trans rfl, hice.trans rfl, hst.trans rfl,
    hsurf.trans rfl⟩

/-- C6: the history handler maps the returned documents one by one.  For a
registered `sensorId` (registry entry `loc`) and every list `docs` that the store
returns to the history query, the response is 200 with a raw array of records
of the same length as `docs`; the record at position `i` has sensorId equal to
the requested identifier, a property windowEndTime equal to that of the `i`-th
document, no property named timestamp, and location, the four metrics and
safetyStatus copied from the `i`-th document.  Hence any ordering of adjacent
documents by windowEndTime (in particular ascending order) carries over to
the response. -/
theorem history_mapping (rt : Runtime) (store : Store) (sensorId : String) (loc : Loc)
    (docs : List JsObj) (hloc : loc ∈ LOCATIONS) (hid : loc.id = sensorId)
    (hstore : store (historyQuerySpec loc (rt.toISOString (rt.now - 60 * 60 * 1000))) =
      Except.ok docs) :
    ∃ recs : List JsObj,
      (apiHistory rt store sensorId).response =
        { status := 200, body := JsVal.arr (recs.map JsVal.obj) } ∧
      recs.length = docs.length ∧
      (∀ (i : Nat) (doc : JsObj), docs[i]? = some doc →
        ∃ r : JsObj, recs[i]? = some r ∧
          r.get "sensorId" = JsVal.str sensorId ∧
          r.get "windowEndTime" = doc.get "windowEndTime" ∧
          r.lookup "timestamp" = none ∧
          r.get "location" = doc.get "location" ∧
          r.get "avgIceThickness" = doc.get "avgIceThicknessCm" ∧
          r.get "avgSurfaceTemperature" = doc.get "avgSurfaceTemperatureC" ∧
          r.get "maxSnowAccumulation" = doc.get "maxSnowAccumulationCm" ∧
          r.get "avgExternalTemperature" = doc.get "avgExternalTemperatureC" ∧
          r.get "safetyStatus" = doc.get "safetyStatus") ∧
      (∀ le : JsVal → JsVal → Prop,
        List.Chain' (fun d₁ d₂ : JsObj => le (d₁.get "windowEndTime") (d₂.get "windowEndTime"))
          docs →
        List.Chain' (fun r₁ r₂ : JsObj => le (r₁.get "windowEndTime") (r₂.get "windowEndTime"))
          recs) := by
  have hfind := find_of_mem sensorId loc hloc hid
  refine ⟨docs.map (historyRecord sensorId), ?_, by simp, ?_, ?_⟩
  · rw [apiHistory_ok rt store sensorId loc docs hfind hstore]
  · intro i doc hdoc
    refine ⟨historyRecord sensorId doc, ?_, rfl, rfl, rfl, rfl, rfl, rfl, rfl, rfl, rfl⟩
    simp [List.getElem?_map, hdoc]
  · intro le hchain
    rw [List.chain'_map]
    exact hchain

/-! ## Latest per location (claims C2, C4) -/

/-- C2: when no latest query fails, `/api/latest` answers 200 with a `data`
array that holds, in registry order, the mapped first document of every
registered location whose latest query returned at least one document and
nothing for the others.  The sensorId values of `data` are those of the
locations with a document, in registry order; they form a duplicate-free
sublist of dows, fifth, nac, so `data` has at most three records, however many
documents the store returns to one query. -/
theorem latest_one_record_per_location (store : Store)
    (h : ∀ loc, loc ∈ LOCATIONS → ∃ rows, store (latestQuerySpec loc) = Except.ok rows) :
    ∃ data : List JsObj,
      (apiLatest store).response =
        { status := 200,
          body := JsVal.obj
            [("success", JsVal.bool true), ("data", JsVal.arr (data.map JsVal.obj))] } ∧
      data = LOCATIONS.filterMap
        (fun loc => (latestDocument store loc).map (latestRecord loc)) ∧
      data.map (fun r => r.get "sensorId") =
        (LOCATIONS.filter (fun loc => (latestDocument store loc).isSome)).map
          (fun loc => JsVal.str loc.id) ∧
      List.Sublist (data.map (fun r => r.get "sensorId"))
        [JsVal.str "dows", JsVal.str "fifth", JsVal.str "nac"] ∧
      (data.map (fun r => r.get "sensorId")).Nodup ∧
      data.length ≤ 3 := by
  obtain ⟨r1, h1⟩ := h locDows (by simp [LOCATIONS_eq])
  obtain ⟨r2, h2⟩ := h locFifth (by simp [LOCATIONS_eq])
  obtain ⟨r3, h3⟩ := h locNac (by simp [LOCATIONS_eq])
  have hdata : latestOf locDows r1 ++ latestOf locFifth r2 ++ latestOf locNac r3 =
      LOCATIONS.filterMap (fun loc => (latestDocument store loc).map (latestRecord loc)) := by
    cases r1 <;> cases r2 <;> cases r3 <;>
      simp [LOCATIONS_eq, latestDocument, latestOf, h1, h2, h3]
  have hids : (LOCATIONS.filterMap
      (fun loc => (latestDocument store loc).map (latestRecord loc))).map
        (fun r => r.get "sensorId") =
      (LOCATIONS.filter (fun loc => (latestDocument store loc).isSome)).map
        (fun loc => JsVal.str loc.id) := by
    cases r1 <;> cases r2 <;> cases r3 <;>
      simp [LOCATIONS_eq, latestDocument, h1, h2, h3, latestRecord, JsObj.get, List.lookup]
  have hsub : List.Sublist
      ((LOCATIONS.filter (fun loc => (latestDocument store loc).isSome)).map
        (fun loc => JsVal.str loc.id))
      [JsVal.str "dows", JsVal.str "fifth", JsVal.str "nac"] :=
    List.Sublist.map _ (List.filter_sublist LOCATIONS)
  have hnodup : [JsVal.str "dows", JsVal.str "fifth", JsVal.str "nac"].Nodup := by
    simp
  refine ⟨_, ?_, hdata, ?_, ?_, ?_, ?_⟩
  · rw [apiLatest_ok store r1 r2 r3 h1 h2 h3]
    rfl
  · rw [hdata, hids]
  · rw [hdata, hids]
    exact hsub
  · rw [hdata, hids]
    exact hnodup.sublist hsub
  · have hlen := hsub.length_le
    rw [← hids, ← hdata, List.length_map] at hlen
    exact hlen

/-- C2 at a concrete store: two documents for Dow's Lake, none for Fifth
Avenue, one for the NAC give exactly the records of dows and nac. -/
theorem latest_one_record_per_location_witness :
    (∀ loc, loc ∈ LOCATIONS → ∃ rows, sampleStore (latestQuerySpec loc) = Except.ok rows) ∧
    ∃ data : List JsObj,
      (apiLatest sampleStore).response =
        { status := 200,
          body := JsVal.obj
            [("success", JsVal.bool true), ("data", JsVal.arr (data.map JsVal.obj))] } ∧
      data.map (fun r => r.get "sensorId") = [JsVal.str "dows", JsVal.str "nac"] := by
  have hs : ∀ loc, loc ∈ LOCATIONS →
      ∃ rows, sampleStore (latestQuerySpec loc) = Except.ok rows := by
    intro loc hloc
    simp only [LOCATIONS, List.mem_cons, List.mem_singleton, List.not_mem_nil, or_false] at hloc
    rcases hloc with rfl | rfl | rfl <;> exact ⟨_, rfl⟩
  obtain ⟨data, hresp, _, hids, _⟩ := latest_one_record_per_location sampleStore hs
  exact ⟨hs, data, hresp, hids.trans rfl⟩

/-- C4 as stated fails.  In `dowsDownStore` the latest query of dows fails
while those of fifth and nac would succeed; the handler issues the query of
dows only, so neither of the other two locations is queried.  Hence it is not
true that a failing location leaves the queries of the other two issued. -/
theorem latest_failure_independent_counterexample :
    dowsDownStore (latestQuerySpec locDows) =
      Except.error (JsVal.str "ServiceUnavailable") ∧
    (∃ rows, dowsDownStore (latestQuerySpec locFifth) = Except.ok rows) ∧
    (∃ rows, dowsDownStore (latestQuerySpec locNac) = Except.ok rows) ∧
    (apiLatest dowsDownStore).queries = [latestQuerySpec locDows] ∧
    latestQuerySpec locFifth ∉ (apiLatest dowsDownStore).queries ∧
    latestQuerySpec locNac ∉ (apiLatest dowsDownStore).queries ∧
    ¬ (∀ (store : Store) (loc : Loc), loc ∈ LOCATIONS →
        (∃ e, store (latestQuerySpec loc) = Except.error e) →
        ∀ other : Loc, other ∈ LOCATIONS → other.id ≠ loc.id →
          latestQuerySpec other ∈ (apiLatest store).queries) := by
  have hq : (apiLatest dowsDownStore).queries = [latestQuerySpec locDows] := by
    rw [apiLatest_fail_dows dowsDownStore _ rfl]
  have hfifth : latestQuerySpec locFifth ∉ (apiLatest dowsDownStore).queries := by
    rw [hq]
    simp [latestQuerySpec, locDows, locFifth]
  have hnac : latestQuerySpec locNac ∉ (apiLatest dowsDownStore).queries := by
    rw [hq]
    simp [latestQuerySpec, locDows, locNac]
  refine ⟨rfl, ⟨_, rfl⟩, ⟨_, rfl⟩, hq, hfifth, hnac, ?_⟩
  intro hall
  exact hfifth (hall dowsDownStore locDows (by simp [LOCATIONS_eq]) ⟨_, rfl⟩ locFifth
    (by simp [LOCATIONS_eq]) (by decide))

/-- C4 amended: the latest queries are issued one after the other in registry
order and the first failure ends the loop.  If the registry splits as
`pre ++ loc :: post`, the latest queries of all of `pre` succeed and that of
`loc` fails, then `/api/latest` issues exactly the latest queries of `pre`
and of `loc`, in that order, none of the queries of `post`, and answers 500
with the body `{ error: 'Latest query failed' }`. -/
theorem latest_aborts_at_first_failure (store : Store) (pre post : List Loc) (loc : Loc)
    (e : JsVal) (hsplit : LOCATIONS = pre ++ loc :: post)
    (hpre : ∀ l, l ∈ pre → ∃ rows, store (latestQuerySpec l) = Except.ok rows)
    (hfail : store (latestQuerySpec loc) = Except.error e) :
    (apiLatest store).queries = (pre ++ [loc]).map latestQuerySpec ∧
    (∀ l, l ∈ post → latestQuerySpec l ∉ (apiLatest store).queries) ∧
    (apiLatest store).response =
      { status := 500, body := JsVal.obj [("error", JsVal.str "Latest query failed")] } := by
  rcases pre with _ | ⟨a, _ | ⟨b, _ | ⟨c, pre⟩⟩⟩
  · simp only [LOCATIONS_eq, List.nil_append, List.cons.injEq] at hsplit
    obtain ⟨rfl, rfl⟩ := hsplit
    rw [apiLatest_fail_dows store e hfail]
    refine ⟨rfl, ?_, rfl⟩
    intro l hl
    simp only [List.mem_cons, List.mem_singleton, List.not_mem_nil, or_false] at hl
    rcases hl with rfl | rfl <;> simp [latestQuerySpec, locDows, locFifth, locNac]
  · simp only [LOCATIONS_eq, List.cons_append, List.nil_append, List.cons.injEq] at hsplit
    obtain ⟨rfl, rfl, rfl⟩ := hsplit
    obtain ⟨r1, h1⟩ := hpre locDows (by simp)
    rw [apiLatest_fail_fifth store r1 e h1 hfail]
    refine ⟨rfl, ?_, rfl⟩
    intro l hl
    simp only [List.mem_singleton] at hl
    subst hl
    simp [latestQuerySpec, locDows, locFifth, locNac]
  · simp only [LOCATIONS_eq, List.cons_append, List.nil_append, List.cons.injEq] at hsplit
    obtain ⟨rfl, rfl, rfl, rfl⟩ := hsplit
    obtain ⟨r1, h1⟩ := hpre locDows (by simp)
    obtain ⟨r2, h2⟩ := hpre locFifth (by simp)
    rw [apiLatest_fail_nac store r1 r2 e h1 h2 hfail]
    refine ⟨rfl, ?_, rfl⟩
    intro l hl
    simp at hl
  · simp [LOCATIONS_eq] at hsplit

/-- C4 amended, at a concrete store: with Fifth Avenue unavailable the handler
queries dows and fifth, never nac, and answers 500. -/
theorem latest_aborts_at_first_failure_witness :
    LOCATIONS = [locDows] ++ locFifth :: [locNac] ∧
    fifthDownStore (JsVal.str "timeout") (latestQuerySpec locFifth) =
      Except.error (JsVal.str "timeout") ∧
    (apiLatest (fifthDownStore (JsVal.str "timeout"))).queries =
      [latestQuerySpec locDows, latestQuerySpec locFifth] ∧
    latestQuerySpec locNac ∉ (apiLatest (fifthDownStore (JsVal.str "timeout"))).queries := by
  have hpre : ∀ l, l ∈ [locDows] →
      ∃ rows, fifthDownStore (JsVal.str "timeout") (latestQuerySpec l) = Except.ok rows := by
    intro l hl
    simp only [List.mem_singleton] at hl
    subst hl
    exact ⟨_, rfl⟩
  have hthm := latest_aborts_at_first_failure (fifthDownStore (JsVal.str "timeout"))
    [locDows] [locNac] locFifth (JsVal.str "timeout") rfl hpre rfl
  exact ⟨rfl, rfl, hthm.1, hthm.2.1 locNac (by simp)⟩

/-! ## Overall status (claim C7) -/

theorem any_map_statusOf (results : List JsObj) (s : String) :
    (results.map statusOf).any (fun v => strictEqStr v s) =
      results.any (fun r => strictEqStr (r.get "safetyStatus") s) := by
  induction results with
  | nil => rfl
  | cons r rs ih => simp only [List.map_cons, List.any_cons, ih, statusOf]

theorem overallStatus_eq_spec (results : List JsObj) :
    overallStatus results = specStatusDerivation (results.map statusOf) := by
  unfold overallStatus specStatusDerivation
  rw [any_map_statusOf, any_map_statusOf]
  cases results with
  | nil => rfl
  | cons r rs =>
    simp only [List.length_cons, ne_eq, Nat.succ_ne_zero, not_false_eq_true, if_true,
      List.map_cons, List.isEmpty_cons, Bool.not_false]

/-- C7: overall status is Status Derivation applied to the result of
Latest-per-location.  When no latest query fails, `/api/latest` answers 200
with some `data` array and `/api/status` answers 200 with overallStatus equal
to the specification's status derivation applied to the safetyStatus values of
that same `data`; when `data` is empty the overall status is Unknown. -/
theorem status_is_derivation_of_latest (store : Store)
    (h : ∀ loc, loc ∈ LOCATIONS → ∃ rows, store (latestQuerySpec loc) = Except.ok rows) :
    ∃ data : List JsObj,
      (apiLatest store).response =
        { status := 200,
          body := JsVal.obj
            [("success", JsVal.bool true), ("data", JsVal.arr (data.map JsVal.obj))] } ∧
      (apiStatus store).response =
        { status := 200,
          body := JsVal.obj
            [ ("success", JsVal.bool true),
              ("overallStatus",
                JsVal.str (specStatusDerivation (data.map (fun r => r.get "safetyStatus")))) ] } ∧
      (data = [] →
        (apiStatus store).response =
          { status := 200,
            body := JsVal.obj
              [("success", JsVal.bool true), ("overallStatus", JsVal.str "Unknown")] }) := by
  obtain ⟨r1, h1⟩ := h locDows (by simp [LOCATIONS_eq])
  obtain ⟨r2, h2⟩ := h locFifth (by simp [LOCATIONS_eq])
  obtain ⟨r3, h3⟩ := h locNac (by simp [LOCATIONS_eq])
  refine ⟨latestOf locDows r1 ++ latestOf locFifth r2 ++ latestOf locNac r3, ?_, ?_, ?_⟩
  · rw [apiLatest_ok store r1 r2 r3 h1 h2 h3]
    rfl
  · rw [apiStatus_ok store r1 r2 r3 h1 h2 h3, overallStatus_eq_spec]
    rfl
  · intro hnil
    rw [apiStatus_ok store r1 r2 r3 h1 h2 h3, hnil]
    rfl

/-- C7 at a concrete store: the latest records of `sampleStore` are Caution
(dows) and Safe (nac), and the overall status served is the derivation of
these, Caution. -/
theorem status_is_derivation_of_latest_witness :
    (∀ loc, loc ∈ LOCATIONS → ∃ rows, sampleStore (latestQuerySpec loc) = Except.ok rows) ∧
    (∃ data : List JsObj,
      (apiLatest sampleStore).response =
        { status := 200,
          body := JsVal.obj
            [("success", JsVal.bool true), ("data", JsVal.arr (data.map JsVal.obj))] } ∧
      (apiStatus sampleStore).response =
        { status := 200,
          body := JsVal.obj
            [ ("success", JsVal.bool true),
              ("overallStatus",
                JsVal.str
                  (specStatusDerivation (data.map (fun r => r.get "safetyStatus")))) ] }) ∧
    (apiStatus sampleStore).response =
      { status := 200,
        body := JsVal.obj
          [("success", JsVal.bool true), ("overallStatus", JsVal.str "Caution")] } := by
  have hs : ∀ loc, loc ∈ LOCATIONS →
      ∃ rows, sampleStore (latestQuerySpec loc) = Except.ok rows := by
    intro loc hloc
    simp only [LOCATIONS, List.mem_cons, List.mem_singleton, List.not_mem_nil, or_false] at hloc
    rcases hloc with rfl | rfl | rfl <;> exact ⟨_, rfl⟩
  obtain ⟨data, hlatest, hstatus, _⟩ := status_is_derivation_of_latest sampleStore hs
  refine ⟨hs, ⟨data, hlatest, hstatus⟩, ?_⟩
  rw [apiStatus_ok sampleStore _ _ _ rfl rfl rfl]
  rfl

/-! ## Error responses (claims C3, C8) -/

/-- C3: `/api/history/:sensorId` answers 400 with `{ error: 'Unknown sensor id' }`
if and only if `sensorId` is not exactly one of dows, fifth, nac (the status
alone is 400 under the same condition); in that case no store query is issued;
and for the identifier of a registry entry exactly one store query is issued,
whose `@loc` parameter is the entry's display name. -/
theorem history_unknown_sensor (rt : Runtime) (store : Store) (sensorId : String) :
    ((apiHistory rt store sensorId).response =
        { status := 400, body := JsVal.obj [("error", JsVal.str "Unknown sensor id")] } ↔
      sensorId ∉ ["dows", "fifth", "nac"]) ∧
    ((apiHistory rt store sensorId).response.status = 400 ↔
      sensorId ∉ ["dows", "fifth", "nac"]) ∧
    (sensorId ∉ ["dows", "fifth", "nac"] → (apiHistory rt store sensorId).queries = []) ∧
    (∀ loc, loc ∈ LOCATIONS → loc.id = sensorId →
      ∃ q, (apiHistory rt store sensorId).queries = [q] ∧
        q.parameters.lookup "@loc" = some (JsVal.str loc.name)) := by
  have hreg : ∀ loc, LOCATIONS.find? (fun l => l.id == sensorId) = some loc →
      (apiHistory rt store sensorId).response.status ≠ 400 ∧
      ∃ q, (apiHistory rt store sensorId).queries = [q] ∧
        q.parameters.lookup "@loc" = some (JsVal.str loc.name) := by
    intro loc hfind
    cases hs : store (historyQuerySpec loc (rt.toISOString (rt.now - 60 * 60 * 1000))) with
    | error e =>
      rw [apiHistory_fail rt store sensorId loc e hfind hs]
      exact ⟨by simp [historyFailure], _, rfl, rfl⟩
    | ok docs =>
      rw [apiHistory_ok rt store sensorId loc docs hfind hs]
      exact ⟨by simp, _, rfl, rfl⟩
  have hmem : sensorId ∉ ["dows", "fifth", "nac"] ↔
      LOCATIONS.find? (fun l => l.id == sensorId) = none := by
    rcases find_location sensorId with ⟨h, hf⟩ | ⟨h, hf⟩ | ⟨h, hf⟩ | ⟨h1, h2, h3, hf⟩
    · rw [hf, h]
      simp
    · rw [hf, h]
      simp
    · rw [hf, h]
      simp
    · rw [hf]
      simp [h1, h2, h3]
  refine ⟨?_, ?_, ?_, ?_⟩
  · rw [hmem]
    constructor
    · intro hresp
      cases hfind : LOCATIONS.find? (fun l => l.id == sensorId) with
      | none => rfl
      | some loc =>
        exfalso
        apply (hreg loc hfind).1
        rw [hresp]
    · intro hfind
      rw [apiHistory_unknown rt store sensorId hfind]
      rfl
  · rw [hmem]
    constructor
    · intro hst
      cases hfind : LOCATIONS.find? (fun l => l.id == sensorId) with
      | none => rfl
      | some loc => exact absurd hst (hreg loc hfind).1
    · intro hfind
      rw [apiHistory_unknown rt store sensorId hfind]
      rfl
  · intro hnot
    rw [apiHistory_unknown rt store sensorId (hmem.mp hnot)]
  · intro loc hloc hid
    exact (hreg loc (find_of_mem sensorId loc hloc hid)).2

/-- C3 at concrete inputs: a capitalised identifier is unknown and causes no
query; the identifier fifth causes one query for Fifth Avenue. -/
theorem history_unknown_sensor_witness :
    (apiHistory sampleRuntime sampleStore "Dows").response =
      { status := 400, body := JsVal.obj [("error", JsVal.str "Unknown sensor id")] } ∧
    (apiHistory sampleRuntime sampleStore "Dows").queries = [] ∧
    (∃ q, (apiHistory sampleRuntime sampleStore "fifth").queries = [q] ∧
      q.parameters.lookup "@loc" = some (JsVal.str "Fifth Avenue")) :=
  ⟨(history_unknown_sensor sampleRuntime sampleStore "Dows").1.mpr (by decide),
    (history_unknown_sensor sampleRuntime sampleStore "Dows").2.2.1 (by decide),
    (history_unknown_sensor sampleRuntime sampleStore "fifth").2.2.2 locFifth
      (by simp [LOCATIONS_eq]) rfl⟩

/-- C8: store failures are reported generically.  Two stores that resolve the
same queries with the same documents and reject the same queries, with
whatever error values, get identical responses from each of the three
endpoints.  When a latest query of a registered location fails, `/api/latest`
answers 500 with exactly `{ error: 'Latest query failed' }` and `/api/status`
answers 500 with exactly `{ success: false, error: 'Status failed' }`; when
the history query of a registered sensor fails, `/api/history/:sensorId`
answers 500 with exactly `{ error: 'History query failed' }`.  These bodies
mention neither the error value nor any record. -/
theorem store_failure_generic (rt : Runtime) (s1 s2 : Store) (sensorId : String)
    (hsame : ∀ q, (s1 q).toOption = (s2 q).toOption) :
    ((apiLatest s1).response = (apiLatest s2).response ∧
      (apiHistory rt s1 sensorId).response = (apiHistory rt s2 sensorId).response ∧
      (apiStatus s1).response = (apiStatus s2).response) ∧
    ((∃ loc, loc ∈ LOCATIONS ∧ ∃ e, s1 (latestQuerySpec loc) = Except.error e) →
      (apiLatest s1).response =
        { status := 500, body := JsVal.obj [("error", JsVal.str "Latest query failed")] } ∧
      (apiStatus s1).response =
        { status := 500,
          body := JsVal.obj
            [("success", JsVal.bool false), ("error", JsVal.str "Status failed")] }) ∧
    (∀ loc, loc ∈ LOCATIONS → loc.id = sensorId →
      (∃ e, s1 (historyQuerySpec loc (rt.toISOString (rt.now - 60 * 60 * 1000))) =
        Except.error e) →
      (apiHistory rt s1 sensorId).response =
        { status := 500, body := JsVal.obj [("error", JsVal.str "History query failed")] }) := by
  refine ⟨⟨apiLatest_response_congr s1 s2 hsame, apiHistory_response_congr rt s1 s2 sensorId hsame,
    apiStatus_response_congr s1 s2 hsame⟩, ?_, ?_⟩
  · intro hfail
    exact ⟨apiLatest_response_of_failure s1 hfail, apiStatus_response_of_failure s1 hfail⟩
  · rintro loc hloc hid ⟨e, he⟩
    rw [apiHistory_fail rt s1 sensorId loc e (find_of_mem sensorId loc hloc hid) he]
    rfl

theorem fifthDownStore_same (e1 e2 : JsVal) (q : QuerySpec) :
    (fifthDownStore e1 q).toOption = (fifthDownStore e2 q).toOption := by
  unfold fifthDownStore
  cases q.parameters.lookup "@loc" with
  | none => rfl
  | some v =>
    cases v with
    | str name =>
      by_cases hn : (name == "Fifth Avenue") = true
      · simp only [hn, if_true]
        rfl
      · simp only [hn, if_false]
        rfl
    | _ => rfl

/-- C8 at a concrete pair of stores: Fifth Avenue fails once with a string
naming a host and once with an object carrying a code; the three endpoints
answer the same in both, `/api/latest` with the fixed 500 body although the
record of dows had already been fetched. -/
theorem store_failure_generic_witness :
    (∀ q, (fifthDownStore (JsVal.str "ECONNRESET 10.0.0.7:443") q).toOption =
      (fifthDownStore (JsVal.obj [("code", JsVal.num 503)]) q).toOption) ∧
    (apiLatest (fifthDownStore (JsVal.str "ECONNRESET 10.0.0.7:443"))).response =
      (apiLatest (fifthDownStore (JsVal.obj [("code", JsVal.num 503)]))).response ∧
    (apiLatest (fifthDownStore (JsVal.str "ECONNRESET 10.0.0.7:443"))).response =
      { status := 500, body := JsVal.obj [("error", JsVal.str "Latest query failed")] } ∧
    (apiHistory sampleRuntime (fifthDownStore (JsVal.str "ECONNRESET 10.0.0.7:443"))
        "fifth").response =
      { status := 500, body := JsVal.obj [("error", JsVal.str "History query failed")] } := by
  have hthm := store_failure_generic sampleRuntime
    (fifthDownStore (JsVal.str "ECONNRESET 10.0.0.7:443"))
    (fifthDownStore (JsVal.obj [("code", JsVal.num 503)])) "fifth"
    (fifthDownStore_same _ _)
  exact ⟨fifthDownStore_same _ _, hthm.1.1,
    (hthm.2.1 ⟨locFifth, by simp [LOCATIONS_eq], _, rfl⟩).1,
    hthm.2.2 locFifth (by simp [LOCATIONS_eq]) rfl ⟨_, rfl⟩⟩

/-- C6 at a concrete input: two NAC documents give two records in the same
order. -/
theorem history_mapping_witness :
    locNac ∈ LOCATIONS ∧
    ∃ recs : List JsObj,
      (apiHistory sampleRuntime (fun _ => Except.ok nacDocuments) "nac").response =
        { status := 200, body := JsVal.arr (recs.map JsVal.obj) } ∧
      recs.length = 2 := by
  have hloc : locNac ∈ LOCATIONS := by simp [LOCATIONS_eq]
  obtain ⟨recs, hresp, hlen, _, _⟩ :=
    history_mapping sampleRuntime (fun _ => Except.ok nacDocuments) "nac" locNac nacDocuments
      hloc rfl rfl
  exact ⟨hloc, recs, hresp, hlen.trans rfl⟩

end RideauCanal
